import Mathlib

/-!
Verification of the `cte_helper` command protocol engine
(src/docker/iowarp/cte_helper.cpp): a line-oriented JSON request/response
dispatcher over an external blob store.  Strings are modelled as `List Char`,
bytes as `Nat` values below 256, and backend failures as `Except` errors.
-/

/-- Characters of a string literal, the working representation of C++
`std::string` in this development. -/
def chars (s : String) : List Char := s.data

/-- First index at which `pat` occurs in `hay`, mirroring
`std::string::find(pat)`: `none` stands for `npos`. -/
def findSub (pat : List Char) : List Char → Option Nat
  | [] => if pat.isPrefixOf ([] : List Char) then some 0 else none
  | c :: t =>
    if pat.isPrefixOf (c :: t) then some 0
    else (findSub pat t).map (· + 1)

/-- Trailing trim of spaces and newlines, mirroring the
`while (!val.empty() && (val.back() == ' ' || val.back() == '\n')) val.pop_back()`
loop of `json_get`. -/
def rtrimSpNl (l : List Char) : List Char :=
  (l.reverse.dropWhile (fun c => c == ' ' || c == '\n')).reverse

/-- `json_get` from cte_helper.cpp: extract the value of `key` from a flat
single-line JSON object.  Searches for `"key":`, skips spaces and tabs, then
either takes the characters up to the next double quote (quoted value; empty
result when no closing quote exists) or takes a bare token up to `,`, `}` or
`]` with trailing spaces/newlines trimmed.  Absent key yields the empty
string. -/
def json_get (json key : List Char) : List Char :=
  let search : List Char := '"' :: key ++ '"' :: ':' :: []
  match findSub search json with
  | none => []
  | some p =>
    let rest := (json.drop (p + search.length)).dropWhile
      (fun c => c == ' ' || c == '\t')
    match rest with
    | [] => []
    | c :: rest2 =>
      if c = '"' then
        if rest2.any (fun d => d == '"') then
          rest2.takeWhile (fun d => !(d == '"'))
        else []
      else
        rtrimSpNl (rest.takeWhile (fun d => !(d == ',' || d == '\x7d' || d == ']')))

/-- The lookup table `"0123456789abcdef"` of `to_hex`. -/
def hexDig (n : Nat) : Char := (chars "0123456789abcdef").getD n 'x'

/-- `to_hex` from cte_helper.cpp: each byte becomes two lowercase hex digits,
most-significant nibble first.  The `% 256` mirrors the
`static_cast<unsigned char>` on the input bytes. -/
def to_hex : List Nat → List Char
  | [] => []
  | c :: rest => hexDig (c % 256 / 16) :: hexDig (c % 256 % 16) :: to_hex rest

/-- Value of one hex character in `from_hex`: the three range checks of the
source, any other character contributing 0. -/
def hexVal (c : Char) : Nat :=
  if '0' ≤ c ∧ c ≤ '9' then c.toNat - '0'.toNat
  else if 'a' ≤ c ∧ c ≤ 'f' then c.toNat - 'a'.toNat + 10
  else if 'A' ≤ c ∧ c ≤ 'F' then c.toNat - 'A'.toNat + 10
  else 0

/-- `from_hex` from cte_helper.cpp: consume pairs of characters
(`i + 1 < hex.size()`), the trailing unpaired character being dropped; a pair
becomes the byte `(hi << 4) | lo`, written `hi * 16 + lo` here since both
nibble values are below 16. -/
def from_hex : List Char → List Nat
  | c1 :: c2 :: rest => (hexVal c1 * 16 + hexVal c2) :: from_hex rest
  | _ => []

/-- `escape_json` from cte_helper.cpp: double quote, backslash, newline and
tab become two-character escapes, every other character passes through. -/
def escape_json : List Char → List Char
  | [] => []
  | c :: rest =>
    (if c = '"' then ['\\', '"']
     else if c = '\\' then ['\\', '\\']
     else if c = '\n' then ['\\', 'n']
     else if c = '\t' then ['\\', 't']
     else [c]) ++ escape_json rest

/-- `respond_ok` from cte_helper.cpp; `extra = []` is the defaulted empty
argument. -/
def respond_ok (extra : List Char) : List Char :=
  if extra = [] then chars "\x7b\"status\":\"ok\"\x7d"
  else chars "\x7b\"status\":\"ok\"," ++ extra ++ chars "\x7d"

/-- `respond_error` from cte_helper.cpp. -/
def respond_error (msg : List Char) : List Char :=
  chars "\x7b\"status\":\"error\",\"message\":\"" ++ escape_json msg ++ chars "\"\x7d"

/-- Decimal rendering of a natural number, modelling `std::to_string` on the
unsigned sizes the helper prints. -/
def natStrGo : Nat → Nat → List Char
  | 0, _ => []
  | fuel + 1, n =>
    if n < 10 then [Char.ofNat (48 + n % 10)]
    else natStrGo fuel (n / 10) ++ [Char.ofNat (48 + n % 10)]

/-- `std::to_string` for `Nat`. -/
def natStr (n : Nat) : List Char := natStrGo (n + 1) n

/-- The JSON string-array builder used by `list_blobs`, `tag_query` and the
readiness record: `["e1","e2",...]` with each element escaped. -/
def strArr (xs : List (List Char)) : List Char :=
  '[' :: List.intercalate [','] (xs.map (fun s => '"' :: (escape_json s ++ ['"']))) ++ [']']

/-- A C++ exception as observed by the catch clauses of `main`: either a
`std::exception` carrying its `what()` text, or anything else. -/
inductive Exn : Type
  | std : List Char → Exn
  | unknown : Exn
deriving DecidableEq

deriving instance DecidableEq for Except

/-- The error message produced by the two catch clauses of the dispatch
loop (lines 233-237 of cte_helper.cpp). -/
def exnMsg : Exn → List Char
  | .std w => chars "exception: " ++ w
  | .unknown => chars "unknown exception"

/-- The Storage Facade: the backend operations invoked by the command
handlers, each able to raise an exception.  `tagOpen` is the
`wrp_cte::core::Tag` constructor; the remaining fields are the member and
client calls of cte_helper.cpp, keyed by tag name. -/
structure Facade : Type where
  tagOpen : List Char → Except Exn Unit
  putBlob : List Char → List Char → List Nat → Except Exn Unit
  getBlobSize : List Char → List Char → Except Exn Nat
  getBlob : List Char → List Char → Nat → Except Exn (List Nat)
  containedBlobs : List Char → Except Exn (List (List Char))
  tagQuery : List Char → Except Exn (List (List Char))
  delBlob : List Char → List Char → Except Exn Unit
  delTag : List Char → Except Exn Unit

/-- Exception-propagating sequencing: the C++ semantics that a throw in the
first action aborts the rest of the handler body and unwinds to the catch. -/
def andThen {α β : Type} (x : Except Exn α) (f : α → Except Exn β) : Except Exn β :=
  match x with
  | .error e => .error e
  | .ok a => f a

theorem andThen_ok {α β : Type} (a : α) (f : α → Except Exn β) :
    andThen (.ok a) f = f a := rfl

theorem andThen_error {α β : Type} (e : Exn) (f : α → Except Exn β) :
    andThen (.error e : Except Exn α) f = .error e := rfl

/-- The body of the `try` block of the dispatch loop (lines 134-232 of
cte_helper.cpp): extract `cmd`, run the matching handler against the facade
`F`, and return the response line it prints together with the flag telling
whether the loop continues (`false` exactly for `quit`/`exit`).  An escaping
backend exception is the `Except.error` case. -/
def handleCmd (F : Facade) (line : List Char) : Except Exn (List Char × Bool) :=
  let cmd := json_get line (chars "cmd")
  if cmd = chars "put" then
    let tag_name := json_get line (chars "tag")
    let blob_name := json_get line (chars "blob")
    let hex_data := json_get line (chars "data")
    if tag_name = [] ∨ blob_name = [] then
      .ok (respond_error (chars "put requires tag and blob"), true)
    else
      let data := from_hex hex_data
      andThen (F.tagOpen tag_name) (fun _ =>
      andThen (F.putBlob tag_name blob_name data) (fun _ =>
      .ok (respond_ok (chars "\"size\":" ++ natStr data.length), true)))
  else if cmd = chars "get" then
    let tag_name := json_get line (chars "tag")
    let blob_name := json_get line (chars "blob")
    if tag_name = [] ∨ blob_name = [] then
      .ok (respond_error (chars "get requires tag and blob"), true)
    else
      andThen (F.tagOpen tag_name) (fun _ =>
      andThen (F.getBlobSize tag_name blob_name) (fun size =>
      if size = 0 then
        .ok (respond_error (chars "blob not found or empty"), true)
      else
        andThen (F.getBlob tag_name blob_name size) (fun buf =>
        .ok (respond_ok (chars "\"size\":" ++ natStr size ++
              chars ",\"data\":\"" ++ to_hex buf ++ chars "\""), true))))
  else if cmd = chars "get_size" then
    let tag_name := json_get line (chars "tag")
    let blob_name := json_get line (chars "blob")
    andThen (F.tagOpen tag_name) (fun _ =>
    andThen (F.getBlobSize tag_name blob_name) (fun size =>
    .ok (respond_ok (chars "\"size\":" ++ natStr size), true)))
  else if cmd = chars "list_blobs" then
    let tag_name := json_get line (chars "tag")
    andThen (F.tagOpen tag_name) (fun _ =>
    andThen (F.containedBlobs tag_name) (fun blobs =>
    .ok (respond_ok (chars "\"blobs\":" ++ strArr blobs), true)))
  else if cmd = chars "tag_query" then
    let pat0 := json_get line (chars "pattern")
    let pat := if pat0 = [] then chars ".*" else pat0
    andThen (F.tagQuery pat) (fun tags =>
    .ok (respond_ok (chars "\"tags\":" ++ strArr tags), true))
  else if cmd = chars "del_blob" then
    let tag_name := json_get line (chars "tag")
    let blob_name := json_get line (chars "blob")
    andThen (F.tagOpen tag_name) (fun _ =>
    andThen (F.delBlob tag_name blob_name) (fun _ =>
    .ok (respond_ok [], true)))
  else if cmd = chars "del_tag" then
    let tag_name := json_get line (chars "tag")
    andThen (F.delTag tag_name) (fun _ =>
    .ok (respond_ok [], true))
  else if cmd = chars "ping" then
    .ok (respond_ok [], true)
  else if cmd = chars "quit" ∨ cmd = chars "exit" then
    .ok (respond_ok [], false)
  else
    .ok (respond_error (chars "unknown command: " ++ cmd), true)

/-- One dispatch cycle including the catch clauses: a `std::exception` or an
unknown exception escaping the handler becomes an error response and the
loop continues. -/
def runCmd (F : Facade) (line : List Char) : List Char × Bool :=
  match handleCmd F line with
  | .ok r => r
  | .error e => (respond_error (exnMsg e), true)

/-- The skip test of line 130: `line.empty() || line[0] == '#'`. -/
def isSkipLine : List Char → Bool
  | [] => true
  | c :: _ => c == '#'

/-- The `while (std::getline(...))` loop of `main`: blank and comment lines
produce nothing; every other line produces its response, followed by the
responses of the remaining lines unless the handler asked to stop
(`quit`/`exit` breaks the loop, leaving later lines unread). -/
def processLines (F : Facade) : List (List Char) → List (List Char)
  | [] => []
  | l :: rest =>
    if isSkipLine l then processLines F rest
    else
      let rc := runCmd F l
      if rc.2 then rc.1 :: processLines F rest else [rc.1]

/-- Outcome of `WRP_CTE_CLIENT_INIT()`: returned `true`, returned `false`,
or threw a `std::exception` with the given message. -/
inductive InitOutcome : Type
  | ok : InitOutcome
  | returnedFalse : InitOutcome
  | threw : List Char → InitOutcome

/-- The whole process (`main` of cte_helper.cpp) as a function of the
initialization outcome, the result of `ListTargets`, the facade behaviour
and the input lines: the list of stdout lines paired with the exit code. -/
def mainModel (init : InitOutcome) (targets : Except Exn (List (List Char)))
    (F : Facade) (input : List (List Char)) : List (List Char) × Nat :=
  match init with
  | .returnedFalse => ([respond_error (chars "WRP_CTE_CLIENT_INIT failed")], 1)
  | .threw w => ([respond_error (chars "Init exception: " ++ w)], 1)
  | .ok =>
    let init_info : List Char :=
      match targets with
      | .ok ts => chars "\"targets\":" ++ strArr ts ++
          chars ",\"target_count\":" ++ natStr ts.length
      | .error (.std w) => chars "\"targets_error\":\"" ++ escape_json w ++ chars "\""
      | .error .unknown => chars "\"targets_error\":\"unknown\""
    ((chars "\x7b\"status\":\"ready\"," ++ init_info ++ chars "\x7d") ::
      processLines F input, 0)

/-- A benign facade for concrete evaluations: every operation succeeds and
every blob reports size 7 with bytes of value 65. -/
def F0 : Facade where
  tagOpen := fun _ => .ok ()
  putBlob := fun _ _ _ => .ok ()
  getBlobSize := fun _ _ => .ok 7
  getBlob := fun _ _ n => .ok (List.replicate n 65)
  containedBlobs := fun _ => .ok []
  tagQuery := fun _ => .ok []
  delBlob := fun _ _ => .ok ()
  delTag := fun _ => .ok ()

/-- A facade over an empty store: every blob reports size 0. -/
def FZero : Facade :=
  { F0 with getBlobSize := fun _ _ => .ok 0 }

/-- A facade whose data operations throw a `std::exception`. -/
def FThrow : Facade :=
  { F0 with
    putBlob := fun _ _ _ => .error (.std (chars "boom"))
    getBlobSize := fun _ _ => .error (.std (chars "boom"))
    delTag := fun _ => .error (.std (chars "boom")) }


theorem hexVal_hexDig : ∀ n : Nat, n < 16 → hexVal (hexDig n) = n := by decide

/-- Claim C3: decoding the hex encoding of any byte sequence yields the
sequence back: `from_hex (to_hex b) = b` whenever every byte is below 256. -/
theorem hex_round_trip (b : List Nat) (h : ∀ x ∈ b, x < 256) :
    from_hex (to_hex b) = b := by
  induction b with
  | nil => rfl
  | cons c rest ih =>
    have hc : c < 256 := h c (by simp)
    have hmod : c % 256 = c := Nat.mod_eq_of_lt hc
    have hhi : c / 16 < 16 := by omega
    have hlo : c % 16 < 16 := by omega
    calc from_hex (to_hex (c :: rest))
        = (hexVal (hexDig (c % 256 / 16)) * 16 + hexVal (hexDig (c % 256 % 16)))
            :: from_hex (to_hex rest) := rfl
      _ = c :: rest := by
          rw [hmod, hexVal_hexDig _ hhi, hexVal_hexDig _ hlo,
            ih (fun x hx => h x (List.mem_cons_of_mem _ hx))]
          congr 1
          omega

/-- Witness for C3 at a concrete byte sequence. -/
theorem hex_round_trip_witness :
    (∀ x ∈ [0, 17, 171, 255], x < 256) ∧ from_hex (to_hex [0, 17, 171, 255]) = [0, 17, 171, 255] :=
  ⟨by decide, hex_round_trip [0, 17, 171, 255] (by decide)⟩

/-- Claim C9: `from_hex` is total; a character outside the three hex-digit
ranges contributes nibble value 0, so the non-hex string "zz" decodes to the
single byte 0. -/
theorem from_hex_total_nonhex_zero :
    (∀ c : Char,
      ¬(('0' ≤ c ∧ c ≤ '9') ∨ ('a' ≤ c ∧ c ≤ 'f') ∨ ('A' ≤ c ∧ c ≤ 'F')) →
      hexVal c = 0) ∧
    from_hex (chars "zz") = [0] := by
  constructor
  · intro c h
    have h1 : ¬('0' ≤ c ∧ c ≤ '9') := fun hc => h (Or.inl hc)
    have h2 : ¬('a' ≤ c ∧ c ≤ 'f') := fun hc => h (Or.inr (Or.inl hc))
    have h3 : ¬('A' ≤ c ∧ c ≤ 'F') := fun hc => h (Or.inr (Or.inr hc))
    unfold hexVal
    rw [if_neg h1, if_neg h2, if_neg h3]
  · decide

/-- Witness for C9 at the non-hex character `z`. -/
theorem from_hex_total_nonhex_zero_witness :
    hexVal 'z' = 0 :=
  from_hex_total_nonhex_zero.1 'z' (by decide)

/-- Claim C10: `escape_json` maps exactly the four characters double-quote,
backslash, newline and tab to escape sequences and passes every other
character (carriage return included) through unchanged. -/
theorem escape_json_exactly_four :
    (∀ (c : Char) (rest : List Char),
      ¬(c = '"') → ¬(c = '\\') → ¬(c = '\n') → ¬(c = '\t') →
      escape_json (c :: rest) = c :: escape_json rest) ∧
    escape_json ['"'] = ['\\', '"'] ∧
    escape_json ['\\'] = ['\\', '\\'] ∧
    escape_json ['\n'] = ['\\', 'n'] ∧
    escape_json ['\t'] = ['\\', 't'] ∧
    escape_json (chars "a\rb") = chars "a\rb" := by
  refine ⟨?_, by decide, by decide, by decide, by decide, by decide⟩
  intro c rest h1 h2 h3 h4
  show (if c = '"' then ['\\', '"']
     else if c = '\\' then ['\\', '\\']
     else if c = '\n' then ['\\', 'n']
     else if c = '\t' then ['\\', 't']
     else [c]) ++ escape_json rest = c :: escape_json rest
  rw [if_neg h1, if_neg h2, if_neg h3, if_neg h4]
  rfl

/-- Witness for C10: a carriage return passes through unchanged. -/
theorem escape_json_exactly_four_witness :
    escape_json ['\r'] = '\r' :: escape_json [] :=
  escape_json_exactly_four.1 '\r' [] (by decide) (by decide) (by decide) (by decide)

/-- Claim C4: a blank or comment line produces zero response lines; any
other line produces exactly one response, emitted before any response of a
later line, and the remaining lines are then processed in order (none at
all after `quit`/`exit`). -/
theorem one_response_per_line (F : Facade) (l : List Char) (rest : List (List Char)) :
    (isSkipLine l = true → processLines F (l :: rest) = processLines F rest) ∧
    (isSkipLine l = false →
      processLines F (l :: rest) =
        (runCmd F l).1 :: (if (runCmd F l).2 then processLines F rest else [])) := by
  constructor
  · intro h
    simp [processLines, h]
  · intro h
    cases hb : (runCmd F l).2 <;> simp [processLines, h, hb]

/-- Witness for C4: a comment line yields nothing, a ping line yields its
single response. -/
theorem one_response_per_line_witness :
    processLines F0 [chars "# c", chars "\x7b\"cmd\":\"ping\"\x7d"] =
      processLines F0 [chars "\x7b\"cmd\":\"ping\"\x7d"] ∧
    processLines F0 [chars "\x7b\"cmd\":\"ping\"\x7d"] =
      (runCmd F0 (chars "\x7b\"cmd\":\"ping\"\x7d")).1 ::
        (if (runCmd F0 (chars "\x7b\"cmd\":\"ping\"\x7d")).2 then processLines F0 [] else []) :=
  ⟨(one_response_per_line F0 (chars "# c") [chars "\x7b\"cmd\":\"ping\"\x7d"]).1 (by decide),
   (one_response_per_line F0 (chars "\x7b\"cmd\":\"ping\"\x7d") []).2 (by decide)⟩

/-- Claim C5: a `get` whose tag and blob are non-empty but whose blob has
size 0 at the backend answers the error "blob not found or empty" and keeps
looping; the answer differs from the size-0 Ok response. -/
theorem get_zero_size_error (F : Facade) (line : List Char)
    (hcmd : json_get line (chars "cmd") = chars "get")
    (ht : json_get line (chars "tag") ≠ [])
    (hb : json_get line (chars "blob") ≠ [])
    (hopen : F.tagOpen (json_get line (chars "tag")) = .ok ())
    (hsize : F.getBlobSize (json_get line (chars "tag")) (json_get line (chars "blob")) = .ok 0) :
    runCmd F line = (respond_error (chars "blob not found or empty"), true) ∧
    respond_error (chars "blob not found or empty") ≠
      respond_ok (chars "\"size\":0,\"data\":\"\"") := by
  refine ⟨?_, by decide⟩
  have hv : ¬(json_get line (chars "tag") = [] ∨ json_get line (chars "blob") = []) :=
    not_or.mpr ⟨ht, hb⟩
  simp only [runCmd, handleCmd, hcmd, hv, hopen, hsize, andThen_ok,
    show (chars "get" = chars "put") = False by decide, if_true, if_false,
    ite_true, ite_false]

/-- Witness for C5: a concrete `get` against the empty store. -/
theorem get_zero_size_error_witness :
    runCmd FZero (chars "\x7b\"cmd\":\"get\",\"tag\":\"t\",\"blob\":\"b\"\x7d") =
      (respond_error (chars "blob not found or empty"), true) ∧
    respond_error (chars "blob not found or empty") ≠
      respond_ok (chars "\"size\":0,\"data\":\"\"") :=
  get_zero_size_error FZero (chars "\x7b\"cmd\":\"get\",\"tag\":\"t\",\"blob\":\"b\"\x7d")
    (by decide) (by decide) (by decide) (by decide) (by decide)

/-- Claim C6: an exception escaping a handler body is caught by the dispatch
loop, becomes an error response carrying the exception's description, and
the loop then continues with the remaining lines. -/
theorem backend_exception_caught (F : Facade) (line : List Char) (e : Exn)
    (heff : isSkipLine line = false)
    (herr : handleCmd F line = .error e) :
    runCmd F line = (respond_error (exnMsg e), true) ∧
    ∀ rest, processLines F (line :: rest) =
      respond_error (exnMsg e) :: processLines F rest := by
  have h1 : runCmd F line = (respond_error (exnMsg e), true) := by
    unfold runCmd
    rw [herr]
  refine ⟨h1, fun rest => ?_⟩
  simp [processLines, heff, h1]

/-- Witness for C6: a `put` against a throwing backend. -/
theorem backend_exception_caught_witness :
    runCmd FThrow (chars "\x7b\"cmd\":\"put\",\"tag\":\"t\",\"blob\":\"b\",\"data\":\"41\"\x7d") =
      (respond_error (exnMsg (.std (chars "boom"))), true) ∧
    ∀ rest, processLines FThrow
        (chars "\x7b\"cmd\":\"put\",\"tag\":\"t\",\"blob\":\"b\",\"data\":\"41\"\x7d" :: rest) =
      respond_error (exnMsg (.std (chars "boom"))) :: processLines FThrow rest :=
  backend_exception_caught FThrow
    (chars "\x7b\"cmd\":\"put\",\"tag\":\"t\",\"blob\":\"b\",\"data\":\"41\"\x7d")
    (.std (chars "boom")) (by decide) (by decide)

/-- Claim C7: a `cmd` value outside the recognized enumeration produces the
error response naming the offending command and the loop continues. -/
theorem unknown_command_error (F : Facade) (line : List Char)
    (h : json_get line (chars "cmd") ∉
      [chars "put", chars "get", chars "get_size", chars "list_blobs",
       chars "tag_query", chars "del_blob", chars "del_tag", chars "ping",
       chars "quit", chars "exit"]) :
    runCmd F line =
      (respond_error (chars "unknown command: " ++ json_get line (chars "cmd")), true) := by
  simp only [List.mem_cons, List.not_mem_nil, or_false, not_or] at h
  obtain ⟨h1, h2, h3, h4, h5, h6, h7, h8, h9, h10⟩ := h
  simp only [runCmd, handleCmd]
  rw [if_neg h1, if_neg h2, if_neg h3, if_neg h4, if_neg h5, if_neg h6,
    if_neg h7, if_neg h8, if_neg (not_or.mpr ⟨h9, h10⟩)]

/-- Witness for C7: `cmd=bogus` yields exactly the response
`{"status":"error","message":"unknown command: bogus"}` and the loop
continues. -/
theorem unknown_command_error_witness :
    runCmd F0 (chars "\x7b\"cmd\":\"bogus\"\x7d") =
      (chars "\x7b\"status\":\"error\",\"message\":\"unknown command: bogus\"\x7d", true) := by
  rw [unknown_command_error F0 (chars "\x7b\"cmd\":\"bogus\"\x7d") (by decide)]
  decide

/-- Claim C8: the exit code is 1 exactly when backend initialization fails,
with a single error response printed and no command line processed; on
successful initialization the exit code is 0 however the loop ends. -/
theorem exit_code_init_only (targets : Except Exn (List (List Char)))
    (F : Facade) (input : List (List Char)) (w : List Char) :
    mainModel .returnedFalse targets F input =
      ([respond_error (chars "WRP_CTE_CLIENT_INIT failed")], 1) ∧
    mainModel (.threw w) targets F input =
      ([respond_error (chars "Init exception: " ++ w)], 1) ∧
    (mainModel .ok targets F input).2 = 0 := by
  refine ⟨rfl, rfl, ?_⟩
  rcases targets with ts | e
  · rfl
  · cases e <;> rfl

/-- Claim C1 counterexample: a `get_size` request with no tag and no blob
field is not rejected by validation — the backend is consulted and its
answer returned as an Ok response (here against the facade `F0`, every blob
reporting size 7); likewise a `put` with no `data` field is not rejected but
stored as a zero-byte blob. -/
theorem get_size_skips_validation_cex :
    json_get (chars "\x7b\"cmd\":\"get_size\"\x7d") (chars "tag") = [] ∧
    json_get (chars "\x7b\"cmd\":\"get_size\"\x7d") (chars "blob") = [] ∧
    runCmd F0 (chars "\x7b\"cmd\":\"get_size\"\x7d") =
      (chars "\x7b\"status\":\"ok\",\"size\":7\x7d", true) ∧
    runCmd F0 (chars "\x7b\"cmd\":\"put\",\"tag\":\"t\",\"blob\":\"b\"\x7d") =
      (chars "\x7b\"status\":\"ok\",\"size\":0\x7d", true) := by
  refine ⟨by decide, by decide, by decide, by decide⟩

/-- Claim C1 as amended: only `put` and `get` validate their required
fields.  For those two commands, an empty or absent tag or blob field
yields the validation error "<cmd> requires tag and blob" and the response
is the same for every facade — no backend call is made. -/
theorem put_get_field_validation (F : Facade) (line : List Char)
    (hcmd : json_get line (chars "cmd") = chars "put" ∨
      json_get line (chars "cmd") = chars "get")
    (hmiss : json_get line (chars "tag") = [] ∨ json_get line (chars "blob") = []) :
    runCmd F line =
      (respond_error (json_get line (chars "cmd") ++ chars " requires tag and blob"),
        true) := by
  rcases hcmd with h | h
  · simp only [runCmd, handleCmd, h, hmiss, if_true, ite_true,
      show chars "put" ++ chars " requires tag and blob" =
        chars "put requires tag and blob" by decide]
  · simp only [runCmd, handleCmd, h, hmiss, if_true, ite_true, if_false, ite_false,
      show (chars "get" = chars "put") = False by decide,
      show chars "get" ++ chars " requires tag and blob" =
        chars "get requires tag and blob" by decide]

/-- Witness for the amended C1: a `put` with a tag but no blob field. -/
theorem put_get_field_validation_witness :
    runCmd F0 (chars "\x7b\"cmd\":\"put\",\"tag\":\"t\"\x7d") =
      (chars "\x7b\"status\":\"error\",\"message\":\"put requires tag and blob\"\x7d",
        true) := by
  rw [put_get_field_validation F0 (chars "\x7b\"cmd\":\"put\",\"tag\":\"t\"\x7d")
    (Or.inl (by decide)) (Or.inr (by decide))]
  decide

/-- Claim C2 counterexample: in `{"k":"a\"b"}` the extractor stops at the
first double-quote character, returning the two characters `a\` — not the
unescaped value `a"b` the claim requires. -/
theorem json_get_escaped_quote_cex :
    json_get (chars "\x7b\"k\":\"a\\\"b\"\x7d") (chars "k") = chars "a\\" ∧
    json_get (chars "\x7b\"k\":\"a\\\"b\"\x7d") (chars "k") ≠ chars "a\"b" := by
  refine ⟨by decide, by decide⟩

theorem takeWhile_eq_of_forall {p : Char → Bool} :
    ∀ (v : List Char), (∀ c ∈ v, p c = true) → ∀ (c : Char), p c = false →
    ∀ (rest : List Char), List.takeWhile p (v ++ c :: rest) = v := by
  intro v
  induction v with
  | nil =>
    intro _ c hc rest
    simp [List.takeWhile, hc]
  | cons a as ih =>
    intro h c hc rest
    have ha : p a = true := h a (List.mem_cons_self a as)
    rw [List.cons_append, List.takeWhile_cons, ha, if_pos rfl,
      ih (fun x hx => h x (List.mem_cons_of_mem _ hx)) c hc rest]

/-- Claim C2 as amended: the extractor performs no unescaping at all.  A
quoted value is returned as its raw characters up to the first double-quote
character, so backslash escape sequences other than `\"` are passed through
verbatim, and an embedded `\"` truncates the value at its backslash. -/
theorem json_get_no_unescaping (v : List Char) (hv : ∀ c ∈ v, ¬(c = '"')) :
    json_get (chars "\x7b\"k\":\"" ++ v ++ chars "\"\x7d") (chars "k") = v := by
  have hobj : chars "\x7b\"k\":\"" ++ v ++ chars "\"\x7d" =
      '\x7b' :: '"' :: 'k' :: '"' :: ':' :: '"' :: (v ++ ('"' :: '\x7d' :: [])) := by
    rw [List.append_assoc]
    rfl
  have hfind : findSub ('"' :: chars "k" ++ '"' :: ':' :: [])
      ('\x7b' :: '"' :: 'k' :: '"' :: ':' :: '"' :: (v ++ ('"' :: '\x7d' :: []))) =
      some 1 := by
    simp [findSub, List.isPrefixOf, chars]
  have hvb : ∀ c ∈ v, (!(c == '"')) = true := by
    intro c hc
    simpa using hv c hc
  rw [hobj]
  simp only [json_get]
  rw [hfind]
  simp [chars, takeWhile_eq_of_forall v hvb '"' (by decide) ('\x7d' :: [])]

/-- Witness for the amended C2: a value holding a two-backslash escape
sequence is returned verbatim, not unescaped. -/
theorem json_get_no_unescaping_witness :
    json_get (chars "\x7b\"k\":\"" ++ chars "x\\\\y" ++ chars "\"\x7d") (chars "k") =
      chars "x\\\\y" :=
  json_get_no_unescaping (chars "x\\\\y") (by decide)
